import Mathlib

/-!
Verification of the fetch/score/rank pipeline of `fashion_ai_v2.py`.

The script is shallowly embedded: Python floats are modelled as `ℚ`,
fallible steps (network download, image decode, model inference) as
`Option`-valued environment functions, and UI side effects (`st.error`,
`st.warning`, `st.info`) as explicit event values carried in results.
-/

/-- Embedding of Python `str.split(",")` on the character list of a string:
`""` yields one empty segment, and empty segments between consecutive commas
are kept, exactly as in Python. -/
def splitCommaChars : List Char → List (List Char)
  | [] => [[]]
  | c :: cs =>
    if c = ',' then [] :: splitCommaChars cs
    else
      match splitCommaChars cs with
      | [] => [[c]]
      | seg :: rest => (c :: seg) :: rest

/-- Embedding of Python `str.strip()`: drop leading and trailing whitespace. -/
def pyStrip (cs : List Char) : List Char :=
  ((cs.dropWhile Char.isWhitespace).reverse.dropWhile Char.isWhitespace).reverse

/-- Embedding of line 87, `custom_topics = [t.strip() for t in custom_text.split(",") if t.strip()]`:
split the free-text field on commas, trim each entry, drop entries that trim to empty. -/
def custom_topics (custom_text : String) : List String :=
  ((splitCommaChars custom_text.data).map (fun cs => String.mk (pyStrip cs))).filter
    (fun t => t ≠ "")

/-- Embedding of line 88, `selected_topics = predefined + custom_topics`:
plain list concatenation of the multiselect value and the parsed free text. -/
def selected_topics (predefined : List String) (custom_text : String) : List String :=
  predefined ++ custom_topics custom_text

/-- Modelled from the spec: the Topic Selector output as the spec describes it,
"the union (set semantics: deduplicated) of the selected predefined topics and
the parsed free-text topics". This definition follows the spec's words, not the
source, and is only used to compare against `selected_topics`. -/
def spec_topics_dedup (predefined : List String) (custom_text : String) : List String :=
  (predefined ++ custom_topics custom_text).dedup

/-- One raw result object of the Unsplash search response body
(the fields read on lines 45-48: `alt_description`, `urls.regular`,
`user.name`, `links.html`). `alt_description` is nullable. -/
structure SearchResult where
  alt_description : Option String
  urls_regular : String
  user_name : String
  links_html : String
  deriving DecidableEq

/-- The HTTP response of the search endpoint: a status code and the parsed
`results` list of the JSON body. -/
structure HttpResponse where
  status_code : Nat
  results : List SearchResult
  deriving DecidableEq

/-- An image record as built on lines 44-49; `score` is absent (`none`) until
the scoring loop assigns it. -/
structure ImageRecord where
  title : String
  url : String
  author : String
  link : String
  score : Option ℚ
  deriving DecidableEq

/-- UI side effects of the script, embedded as values. -/
inductive UIEvent where
  | errorMissingKey
  | warningStatus (query : String) (status_code : Nat)
  | warningNoImages (topic : String)
  | infoChooseTopics
  deriving DecidableEq

/-- The query parameters of a search request (line 34-37). -/
structure SearchRequest where
  query : String
  per_page : Nat
  client_id : String
  orientation : String
  deriving DecidableEq

/-- Result of one `fetch_unsplash_images` call: the returned list, the UI
events emitted, and the request sent to the search endpoint (`none` when no
network call was made). -/
structure FetchOutcome where
  images : List ImageRecord
  events : List UIEvent
  request : Option SearchRequest
  deriving DecidableEq

/-- Embedding of Python truthiness of the credential: `not UNSPLASH_ACCESS_KEY`
is true when the secret is absent or the empty string. -/
def keyFalsy : Option String → Bool
  | none => true
  | some s => s == ""

/-- Embedding of Python `x or d` on a nullable string: the default is taken
when `x` is `None` or falsy (the empty string). -/
def pyOrString (x : Option String) (d : String) : String :=
  match x with
  | none => d
  | some s => if s = "" then d else s

/-- Embedding of the result mapping on lines 44-49. -/
def toRecord (r : SearchResult) : ImageRecord :=
  ⟨pyOrString r.alt_description "Untitled", r.urls_regular, r.user_name, r.links_html, none⟩

/-- Embedding of `fetch_unsplash_images` (lines 29-51). The network is passed
in as the response `resp` the endpoint would produce; `request = none` records
that the guard returned before `requests.get` ran. -/
def fetch_unsplash_images (key : Option String) (query : String) (count : Nat)
    (resp : HttpResponse) : FetchOutcome :=
  if keyFalsy key then
    ⟨[], [.errorMissingKey], none⟩
  else if resp.status_code ≠ 200 then
    ⟨[], [.warningStatus query resp.status_code], some ⟨query, count, key.getD "", "portrait"⟩⟩
  else
    ⟨resp.results.map toRecord, [], some ⟨query, count, key.getD "", "portrait"⟩⟩

/-- Embedding of Python `random.uniform(a, b) = a + (b - a) * random()`,
where `u` stands for the unit sample returned by `random()`. -/
def randomUniform (a b u : ℚ) : ℚ :=
  a + (b - a) * u

/-- Round-half-to-even on `ℚ`, the tie-breaking rule of Python `round`. -/
def roundHalfEven (x : ℚ) : ℤ :=
  if x - (x.floor : ℚ) < 1/2 then x.floor
  else if 1/2 < x - (x.floor : ℚ) then x.floor + 1
  else if x.floor % 2 = 0 then x.floor else x.floor + 1

/-- Embedding of Python `round(x, 2)`: round to two decimal places. -/
def roundTo2 (x : ℚ) : ℚ :=
  (roundHalfEven (x * 100) : ℚ) / 100

/-- Embedding of `compute_aesthetic_score` (lines 60-70). `attempt` is the
outcome of the `try` block up to the extracted logit: `some logit` when
download, decode and the forward pass all succeed, `none` when any of them
raises. `u` is the unit sample consumed by `random.uniform(3, 7)` in the
`except` branch. -/
def compute_aesthetic_score (attempt : Option ℚ) (u : ℚ) : ℚ :=
  match attempt with
  | some logit => roundTo2 (5 + logit * (5/2))
  | none => randomUniform 3 7 u

/-- Environment of the scoring loop: per image URL, the outcome of the `try`
block and the unit randomness used on failure. -/
structure ScoreEnv where
  attempt : String → Option ℚ
  urand : String → ℚ

/-- Embedding of the scoring loop (lines 109-110): every record gets
`score` assigned from `compute_aesthetic_score` on its URL. -/
def scoreAll (se : ScoreEnv) (images : List ImageRecord) : List ImageRecord :=
  images.map fun img =>
    ⟨img.title, img.url, img.author, img.link,
      some (compute_aesthetic_score (se.attempt img.url) (se.urand img.url))⟩

/-- The sort key of line 111, `lambda x: x["score"]`. The default `0` is never
reached in the pipeline since the scoring loop runs first. -/
def scoreVal (r : ImageRecord) : ℚ :=
  r.score.getD 0

/-- Stable insertion into a descending-sorted list: `a` is placed before the
first element whose score does not exceed it, so earlier elements with equal
scores stay in front, as with Python's stable `sorted`. -/
def insertDesc (a : ImageRecord) : List ImageRecord → List ImageRecord
  | [] => [a]
  | b :: bs => if scoreVal b ≤ scoreVal a then a :: b :: bs else b :: insertDesc a bs

/-- Embedding of line 111, `sorted(images, key=lambda x: x["score"], reverse=True)`:
stable descending sort by score. -/
def rankImages : List ImageRecord → List ImageRecord
  | [] => []
  | a :: as => insertDesc a (rankImages as)

/-- Environment of one page render: the credential, the search endpoint's
response per query, and the scoring environment. -/
structure Env where
  key : Option String
  response : String → HttpResponse
  score : ScoreEnv

/-- What the per-topic pass renders for one topic. -/
structure TopicSection where
  topic : String
  fetched : FetchOutcome
  displayed : List ImageRecord
  events : List UIEvent
  deriving DecidableEq

/-- Embedding of the loop body, lines 100-115: fetch 10 images, warn and skip
when empty, otherwise score everything, rank, and display `ranked[:5]`. -/
def processTopic (env : Env) (topic : String) : TopicSection :=
  let f := fetch_unsplash_images env.key topic 10 (env.response topic)
  if f.images = [] then
    ⟨topic, f, [], [.warningNoImages topic]⟩
  else
    ⟨topic, f, (rankImages (scoreAll env.score f.images)).take 5, []⟩

/-- Result of a whole render: halted at `st.stop` (line 92) with the prompt
shown, or completed with one section per selected topic. -/
inductive PipeResult where
  | halted (events : List UIEvent)
  | completed (sections : List TopicSection)
  deriving DecidableEq

/-- Embedding of the top-level control flow (lines 87-115): build the topic
list, halt on empty selection, otherwise process each topic in order. -/
def runPipeline (predefined : List String) (custom_text : String) (env : Env) : PipeResult :=
  let topics := selected_topics predefined custom_text
  if topics = [] then .halted [.infoChooseTopics]
  else .completed (topics.map (processTopic env))

/-- Number of search-endpoint calls a render performed. -/
def PipeResult.networkCalls : PipeResult → Nat
  | .halted _ => 0
  | .completed secs => (secs.map fun s => if s.fetched.request.isSome then 1 else 0).sum

/-! Helper lemmas. -/

/-- The computable `Rat.floor` agrees with the order-theoretic floor. -/
theorem ratFloor_eq_floor (x : ℚ) : x.floor = ⌊x⌋ := by
  rw [Rat.floor_def', ← Rat.floor_def]

/-- Round-half-to-even is within one half of its argument. -/
theorem abs_roundHalfEven_sub (x : ℚ) : |(roundHalfEven x : ℚ) - x| ≤ 1/2 := by
  have hle : (⌊x⌋ : ℚ) ≤ x := Int.floor_le x
  have hlt : x < (⌊x⌋ : ℚ) + 1 := Int.lt_floor_add_one x
  unfold roundHalfEven
  rw [ratFloor_eq_floor]
  split_ifs with h1 h2 h3 <;> rw [abs_le] <;> push_cast <;> constructor <;> linarith

/-- Rounding to two decimal places moves a rational by at most `1/200`. -/
theorem abs_roundTo2_sub (x : ℚ) : |roundTo2 x - x| ≤ 1/200 := by
  unfold roundTo2
  have h : (roundHalfEven (x * 100) : ℚ) / 100 - x =
      ((roundHalfEven (x * 100) : ℚ) - x * 100) / 100 := by ring
  rw [h, abs_div, abs_of_pos (by norm_num : (0:ℚ) < 100)]
  linarith [abs_roundHalfEven_sub (x * 100)]

/-- Membership in a stable descending insertion. -/
theorem mem_insertDesc {x a : ImageRecord} {l : List ImageRecord} :
    x ∈ insertDesc a l ↔ x = a ∨ x ∈ l := by
  induction l with
  | nil => simp [insertDesc]
  | cons b bs ih =>
    unfold insertDesc
    split_ifs with h
    · simp
    · simp [ih]
      tauto

/-- Inserting into a descending-sorted list keeps it descending-sorted. -/
theorem pairwise_insertDesc {a : ImageRecord} {l : List ImageRecord}
    (hl : l.Pairwise (fun x y => scoreVal y ≤ scoreVal x)) :
    (insertDesc a l).Pairwise (fun x y => scoreVal y ≤ scoreVal x) := by
  induction l with
  | nil => simp [insertDesc]
  | cons b bs ih =>
    rw [List.pairwise_cons] at hl
    obtain ⟨hb, hbs⟩ := hl
    unfold insertDesc
    split_ifs with h
    · refine List.Pairwise.cons ?_ (List.Pairwise.cons hb hbs)
      intro x hx
      cases hx with
      | head => exact h
      | tail _ hx => exact le_trans (hb x hx) h
    · refine List.Pairwise.cons ?_ (ih hbs)
      intro x hx
      rcases mem_insertDesc.mp hx with rfl | hx
      · exact le_of_lt (lt_of_not_le h)
      · exact hb x hx

/-- The ranked output is always descending-sorted by score. -/
theorem rankImages_pairwise (images : List ImageRecord) :
    (rankImages images).Pairwise (fun x y => scoreVal y ≤ scoreVal x) := by
  induction images with
  | nil => simp [rankImages]
  | cons a as ih => exact pairwise_insertDesc ih

/-- Insertion grows the length by one. -/
theorem length_insertDesc (a : ImageRecord) (l : List ImageRecord) :
    (insertDesc a l).length = l.length + 1 := by
  induction l with
  | nil => rfl
  | cons b bs ih =>
    unfold insertDesc
    split_ifs <;> simp [ih]

/-- Ranking preserves the number of records. -/
theorem length_rankImages (images : List ImageRecord) :
    (rankImages images).length = images.length := by
  induction images with
  | nil => rfl
  | cons a as ih => simp [rankImages, length_insertDesc, ih]

/-- Scoring preserves the number of records. -/
theorem length_scoreAll (se : ScoreEnv) (images : List ImageRecord) :
    (scoreAll se images).length = images.length :=
  List.length_map _ _

/-! Claim theorems. -/

/-- C1, counterexample: the Topic Selector does not deduplicate. Selecting the
predefined topic "street style" and typing the same topic in the free-text
field yields the topic twice, so the output is not the set-semantics union the
claim describes. -/
theorem selected_topics_dup_counterexample :
    selected_topics ["street style"] "street style" =
      ["street style", "street style"] ∧
    ¬ (selected_topics ["street style"] "street style").Nodup ∧
    selected_topics ["street style"] "street style" ≠
      spec_topics_dedup ["street style"] "street style" := by
  decide

/-- C1 (amended): for every selection of predefined topics and every
comma-separated free-text input, the Topic Selector's output is the
concatenation of the selected predefined topics and the parsed free-text
topics (whitespace-trimmed, empty entries dropped); its members are exactly
the union of the two sources, but duplicates are not removed. -/
theorem selected_topics_mem (predefined : List String) (custom_text : String) (s : String) :
    s ∈ selected_topics predefined custom_text ↔
      s ∈ predefined ∨
        ((∃ seg ∈ splitCommaChars custom_text.data, String.mk (pyStrip seg) = s) ∧ s ≠ "") := by
  simp [selected_topics, custom_topics, List.mem_append, List.mem_filter, List.mem_map]

/-- C7: for every topic and count, a missing API credential makes
`fetch_unsplash_images` report the error and return the empty list, and no
request is sent to the search endpoint. -/
theorem missing_key_no_network (query : String) (count : Nat) (resp : HttpResponse) :
    (fetch_unsplash_images none query count resp).images = [] ∧
    UIEvent.errorMissingKey ∈ (fetch_unsplash_images none query count resp).events ∧
    (fetch_unsplash_images none query count resp).request = none := by
  simp [fetch_unsplash_images, keyFalsy]

/-- C9, counterexample: a result whose `alt_description` is present but empty
is mapped to title "Untitled", not kept, because line 45 tests truthiness. -/
theorem present_empty_alt_not_kept :
    (toRecord ⟨some "", "u", "a", "l"⟩).title = "Untitled" ∧
    (toRecord ⟨some "", "u", "a", "l"⟩).title ≠ "" := by
  decide

/-- C9 (amended): a result with a missing (null) `alt_description` is mapped
to the title "Untitled", and a result with a present non-empty
`alt_description` keeps it as its title (a present empty one is also mapped to
"Untitled"). -/
theorem title_defaulting (r : SearchResult) (s : String) :
    (r.alt_description = none → (toRecord r).title = "Untitled") ∧
    (r.alt_description = some s → s ≠ "" → (toRecord r).title = s) := by
  constructor
  · intro h
    simp [toRecord, pyOrString, h]
  · intro h hs
    simp [toRecord, pyOrString, h, hs]

/-- Witness for C9: the null case yields "Untitled" and a non-empty present
title is kept. -/
theorem title_defaulting_witness :
    (toRecord ⟨none, "u1", "a1", "l1"⟩).title = "Untitled" ∧
    (toRecord ⟨some "hello", "u2", "a2", "l2"⟩).title = "hello" :=
  ⟨(title_defaulting ⟨none, "u1", "a1", "l1"⟩ "x").1 rfl,
   (title_defaulting ⟨some "hello", "u2", "a2", "l2"⟩ "hello").2 rfl (by decide)⟩

/-- C10: a search result whose `alt_description` is present but the empty
string (the only falsy string) is also mapped to title "Untitled", for every
choice of the remaining fields. -/
theorem falsy_alt_maps_untitled (url author link : String) :
    (toRecord ⟨some "", url, author, link⟩).title = "Untitled" := by
  simp [toRecord, pyOrString]

/-- C2: every record produced by the scoring step carries a score value
(a rational, hence finite and never NaN in this embedding), whatever the
download/decode/inference outcomes in the environment are. -/
theorem score_present_after_scoring (se : ScoreEnv) (images : List ImageRecord)
    (r : ImageRecord) (h : r ∈ scoreAll se images) :
    ∃ q : ℚ, r.score = some q := by
  simp only [scoreAll, List.mem_map] at h
  obtain ⟨img, _, rfl⟩ := h
  exact ⟨_, rfl⟩

/-- Witness for C2: scoring a record under an environment where every step
fails still yields a present score. -/
theorem score_present_after_scoring_witness :
    ∃ q : ℚ, (ImageRecord.mk "t" "u" "a" "l" (some (randomUniform 3 7 0))).score = some q :=
  score_present_after_scoring ⟨fun _ => none, fun _ => 0⟩ [⟨"t", "u", "a", "l", none⟩]
    _ (List.mem_singleton.mpr rfl)

/-- C3: the ranked sequence is sorted descending by score: each element's
score is at least the next one's. -/
theorem ranked_sorted_desc (images : List ImageRecord) (i : Nat)
    (h : i + 1 < (rankImages images).length) :
    scoreVal ((rankImages images).get ⟨i + 1, h⟩) ≤
      scoreVal ((rankImages images).get ⟨i, Nat.lt_of_succ_lt h⟩) :=
  List.pairwise_iff_get.mp (rankImages_pairwise images) ⟨i, Nat.lt_of_succ_lt h⟩
    ⟨i + 1, h⟩ (Nat.lt_succ_self i)

/-- Witness for C3: on two concrete records with scores 4 and 7, position 0 of
the ranked output has at least the score of position 1. -/
theorem ranked_sorted_desc_witness :
    scoreVal ((rankImages [⟨"A", "uA", "aA", "lA", some 4⟩,
        ⟨"B", "uB", "aB", "lB", some 7⟩]).get ⟨1, by decide⟩) ≤
      scoreVal ((rankImages [⟨"A", "uA", "aA", "lA", some 4⟩,
        ⟨"B", "uB", "aB", "lB", some 7⟩]).get ⟨0, by decide⟩) :=
  ranked_sorted_desc [⟨"A", "uA", "aA", "lA", some 4⟩,
    ⟨"B", "uB", "aB", "lB", some 7⟩] 0 (by decide)

/-- C4: the per-topic pass displays at most 5 records; the displayed count is
the minimum of 5 and the fetched count (so 10 fetched means 5 displayed), and
what is displayed is an initial segment of the ranked sequence. -/
theorem display_top5 (env : Env) (topic : String) :
    (processTopic env topic).displayed.length ≤ 5 ∧
    (processTopic env topic).displayed.length =
      min 5 (fetch_unsplash_images env.key topic 10 (env.response topic)).images.length ∧
    ∃ rest,
      rankImages (scoreAll env.score
          (fetch_unsplash_images env.key topic 10 (env.response topic)).images) =
        (processTopic env topic).displayed ++ rest := by
  by_cases h : (fetch_unsplash_images env.key topic 10 (env.response topic)).images = []
  · simp [processTopic, h, scoreAll, rankImages]
  · simp only [processTopic]
    rw [if_neg h]
    refine ⟨?_, ?_,
      ⟨(rankImages (scoreAll env.score
          (fetch_unsplash_images env.key topic 10 (env.response topic)).images)).drop 5,
        (List.take_append_drop 5 _).symm⟩⟩
    · simp [List.length_take]
    · simp [List.length_take, length_rankImages, length_scoreAll]

/-- C5: when the try block fails, the scorer returns exactly the
`random.uniform(3, 7)` fallback, which lies in the range 3 to 7 for every
unit sample; no error is propagated since the function is total. -/
theorem scorer_failure_fallback (u : ℚ) (h0 : 0 ≤ u) (h1 : u < 1) :
    compute_aesthetic_score none u = randomUniform 3 7 u ∧
    3 ≤ compute_aesthetic_score none u ∧ compute_aesthetic_score none u ≤ 7 := by
  refine ⟨rfl, ?_, ?_⟩ <;>
    simp only [compute_aesthetic_score, randomUniform] <;> nlinarith

/-- Witness for C5 at the unit sample 0. -/
theorem scorer_failure_fallback_witness :
    compute_aesthetic_score none 0 = randomUniform 3 7 0 ∧
    3 ≤ compute_aesthetic_score none 0 ∧ compute_aesthetic_score none 0 ≤ 7 :=
  scorer_failure_fallback 0 (by decide) (by decide)

/-- C6, counterexample: on a successful pass with logit `1/1000` the returned
score is the rounded value 5, not the exact affine transform
`5 + (1/1000) * 2.5 = 5.0025`, because line 68 rounds to two decimals. -/
theorem score_affine_not_exact :
    compute_aesthetic_score (some (1/1000)) 0 ≠ 5 + (1/1000) * (5/2) := by
  have hval : compute_aesthetic_score (some (1/1000)) 0 = 5 := by
    show roundTo2 (5 + (1/1000) * (5/2)) = 5
    unfold roundTo2 roundHalfEven
    rw [ratFloor_eq_floor]
    have hx : ((5 + (1/1000) * (5/2) : ℚ)) * 100 = 2001/4 := by norm_num
    rw [hx]
    have hfl : ⌊(2001/4 : ℚ)⌋ = 500 := by norm_num [Int.floor_eq_iff]
    rw [hfl]
    norm_num
  rw [hval]
  norm_num

/-- C6 (amended): on success the returned score is the affine transform
`5 + raw_logit * 2.5` rounded to two decimal places, hence within `1/200` of
the exact affine transform. -/
theorem score_affine_rounded (logit u : ℚ) :
    compute_aesthetic_score (some logit) u = roundTo2 (5 + logit * (5/2)) ∧
    |compute_aesthetic_score (some logit) u - (5 + logit * (5/2))| ≤ 1/200 :=
  ⟨rfl, abs_roundTo2_sub (5 + logit * (5/2))⟩

/-- C8: when the combined topic selection is empty the pipeline halts with the
prompt before anything else runs: no topic section is produced and no network
call is made, whatever the environment would have answered. -/
theorem empty_topics_halt (predefined : List String) (custom_text : String) (env : Env)
    (h : selected_topics predefined custom_text = []) :
    runPipeline predefined custom_text env = .halted [.infoChooseTopics] ∧
    (runPipeline predefined custom_text env).networkCalls = 0 := by
  have hrun : runPipeline predefined custom_text env = .halted [.infoChooseTopics] := by
    simp [runPipeline, h]
  exact ⟨hrun, by rw [hrun]; rfl⟩

/-- Witness for C8: no predefined selection and an empty free-text field halt
the pipeline with zero network calls. -/
theorem empty_topics_halt_witness :
    runPipeline [] "" ⟨none, fun _ => ⟨404, []⟩, ⟨fun _ => none, fun _ => 0⟩⟩ =
      .halted [.infoChooseTopics] ∧
    (runPipeline [] "" ⟨none, fun _ => ⟨404, []⟩,
        ⟨fun _ => none, fun _ => 0⟩⟩).networkCalls = 0 :=
  empty_topics_halt [] "" ⟨none, fun _ => ⟨404, []⟩, ⟨fun _ => none, fun _ => 0⟩⟩ (by decide)
